import Mathlib

/-!
Verification of the Xandeum dashboard's reliability scoring core.

The definitions below are a shallow embedding of the TypeScript source:
JavaScript numbers are modelled as `Int` where the code only ever holds
integers (slots, stake, counters) and as `ℚ` where fractional values arise
(skip rate, efficiency, thresholds).  Optional records are `Option`.
-/

namespace Xandeum

/-- A vote-accounts entry (fields `lastVote`, `activatedStake`, `commission`)
as consumed by `calculateRealMetrics` in `src/unnamed/part_001`. -/
structure VoteRecord where
  lastVote : Int
  activatedStake : Int
  commission : Int
  deriving DecidableEq

/-- A block-production entry (fields `leaderSlots`, `blocksProduced`). -/
structure ProductionRecord where
  leaderSlots : Int
  blocksProduced : Int
  deriving DecidableEq

/-- The argument object `{ vote, production, gossip }` that the dashboard
passes to `calculateRealMetrics`; `gossip` is the truthiness of the node's
gossip address. -/
structure RawNode where
  gossip : Bool
  vote : Option VoteRecord
  production : Option ProductionRecord
  deriving DecidableEq

/-- The record `{ lag, skip, efficiency, xri }` returned by
`calculateRealMetrics`. -/
structure Metrics where
  lag : Int
  skip : ℚ
  efficiency : ℚ
  xri : Int
  deriving DecidableEq

/-- Embeds src/unnamed/part_001 lines 109-114: the XRI block of
`calculateRealMetrics`:
`let xri = 100; xri -= (skip * 1.5); xri -= (lag * 0.5);`
`if (!node.gossip) xri -= 20; xri = Math.max(0, Math.min(100, Math.floor(xri)))`. -/
def xriScore (skip : ℚ) (lag : Int) (gossip : Bool) : Int :=
  let xri0 : ℚ := 100 - skip * (3 / 2) - (lag : ℚ) * (1 / 2)
  let xri1 : ℚ := if gossip then xri0 else xri0 - 20
  max 0 (min 100 ⌊xri1⌋)

/-- Embeds src/unnamed/part_001 lines 94-116, `calculateRealMetrics(node, currentSlot)`:
vote lag (clamped at 0), skip rate from the production record, efficiency
with the lag-based fallback, and the clamped XRI. -/
def calculateRealMetrics (node : RawNode) (currentSlot : Int) : Metrics :=
  let lag : Int :=
    match node.vote with
    | some v => if 0 < currentSlot then max 0 (currentSlot - v.lastVote) else 0
    | none => 0
  let leader : Int :=
    match node.production with
    | some p => p.leaderSlots
    | none => 0
  let produced : Int :=
    match node.production with
    | some p => p.blocksProduced
    | none => 0
  let skip : ℚ :=
    if 0 < leader then ((leader : ℚ) - (produced : ℚ)) / (leader : ℚ) * 100 else 0
  let efficiency : ℚ :=
    if 0 < leader then (produced : ℚ) / (leader : ℚ) * 100
    else if lag < 5 then 100 else 50
  ⟨lag, skip, efficiency, xriScore skip lag node.gossip⟩

/-- Embeds src/unnamed/part_001 lines 87-92, `getBadgeStatus(xri)`. -/
inductive Badge where
  | GOLD
  | SILVER
  | BRONZE
  | NONE
  deriving DecidableEq

/-- Embeds src/unnamed/part_001 lines 87-92: badge thresholds 90 / 75 / 50. -/
def getBadgeStatus (xri : Int) : Badge :=
  if 90 ≤ xri then .GOLD
  else if 75 ≤ xri then .SILVER
  else if 50 ≤ xri then .BRONZE
  else .NONE

/-- Embeds src/unnamed/part_001 lines 379-383 (`riskStats`): the critical filter
`n.xriScore < 50`. -/
def riskCritical (xri : Int) : Bool := xri < 50

/-- Embeds src/unnamed/part_001 lines 379-383 (`riskStats`): the warning filter
`n.xriScore >= 50 && n.xriScore < 80`. -/
def riskWarning (xri : Int) : Bool := 50 ≤ xri && xri < 80

/-- Embeds src/unnamed/part_001 lines 379-383 (`riskStats`): the healthy filter
`n.xriScore >= 80`. -/
def riskHealthy (xri : Int) : Bool := 80 ≤ xri

/-- Clamping to `[0, 100]` commutes with the integer floor, because the two
bounds are integers.  This bridges the code's floor-then-clamp order and the
spec's clamp-then-floor wording. -/
theorem floor_clamp (q : ℚ) : ⌊max 0 (min 100 q)⌋ = max 0 (min 100 ⌊q⌋) := by
  have h100 : ⌊(100 : ℚ)⌋ = 100 := by norm_num
  rcases le_total q 0 with hq | hq
  · have hfq : ⌊q⌋ ≤ 0 := by simpa using Int.floor_mono hq
    rw [max_eq_left (le_trans (min_le_right (100 : ℚ) q) hq), Int.floor_zero,
      min_eq_right (le_trans hfq (by norm_num)), max_eq_left hfq]
  · rcases le_total q 100 with hq2 | hq2
    · have hfq : 0 ≤ ⌊q⌋ := by simpa using Int.floor_mono hq
      have hfq2 : ⌊q⌋ ≤ 100 := by simpa [h100] using Int.floor_mono hq2
      rw [min_eq_right hq2, max_eq_right hq, min_eq_right hfq2, max_eq_right hfq]
    · have hfq2 : 100 ≤ ⌊q⌋ := by simpa [h100] using Int.floor_mono hq2
      rw [min_eq_left hq2, max_eq_right (by norm_num : (0 : ℚ) ≤ 100), h100,
        min_eq_left hfq2, max_eq_right (by norm_num : (0 : ℤ) ≤ 100)]

/-- The XRI block in the claim's phrasing (clamp to `[0,100]`, then floor)
agrees with the code (floor, then clamp). -/
theorem xriScore_clamp_floor (skip : ℚ) (lag : Int) (g : Bool) :
    xriScore skip lag g
      = ⌊max 0 (min 100 ((100 : ℚ) - 3 / 2 * skip - 1 / 2 * (lag : ℚ)
          - (if g then 0 else 20)))⌋ := by
  rw [floor_clamp]
  unfold xriScore
  cases g <;> simp only [Bool.false_eq_true, if_false, if_true] <;> ring_nf

/-- The `xri` field of `calculateRealMetrics` is `xriScore` applied to the
computed skip rate and vote lag. -/
theorem calculateRealMetrics_xri (node : RawNode) (currentSlot : Int) :
    (calculateRealMetrics node currentSlot).xri
      = xriScore (calculateRealMetrics node currentSlot).skip
          (calculateRealMetrics node currentSlot).lag node.gossip := rfl

/-- Increasing the skip rate or the vote lag never increases the XRI. -/
theorem xriScore_antitone {s1 s2 : ℚ} {l1 l2 : Int} (g : Bool)
    (hs : s1 ≤ s2) (hl : l1 ≤ l2) : xriScore s2 l2 g ≤ xriScore s1 l1 g := by
  have hcl : (l1 : ℚ) ≤ (l2 : ℚ) := by exact_mod_cast hl
  have key : (100 : ℚ) - s2 * (3 / 2) - (l2 : ℚ) * (1 / 2)
      ≤ 100 - s1 * (3 / 2) - (l1 : ℚ) * (1 / 2) := by linarith
  unfold xriScore
  cases g <;> simp only [Bool.false_eq_true, if_false, if_true]
  · exact max_le_max le_rfl (min_le_min le_rfl (Int.floor_mono (by linarith)))
  · exact max_le_max le_rfl (min_le_min le_rfl (Int.floor_mono key))

/-- Claim C1: the reliability index starts at 100, subtracts 1.5 times the
skip rate, 0.5 times the vote lag, a flat 20 when the gossip address is
absent, clamps to `[0,100]` and floors; on the sample with a vote at slot
900, production 95 of 100, gossip present and current slot 1000, this gives
vote lag 100, skip rate 5, efficiency 95, index 42, risk tier critical and
badge NONE. -/
theorem claim1_reliability_formula :
    (∀ (node : RawNode) (currentSlot : Int),
      (calculateRealMetrics node currentSlot).xri
        = ⌊max 0 (min 100 ((100 : ℚ)
            - 3 / 2 * (calculateRealMetrics node currentSlot).skip
            - 1 / 2 * ((calculateRealMetrics node currentSlot).lag : ℚ)
            - (if node.gossip then 0 else 20)))⌋) ∧
    calculateRealMetrics ⟨true, some ⟨900, 0, 0⟩, some ⟨100, 95⟩⟩ 1000
        = ⟨100, 5, 95, 42⟩ ∧
    riskCritical 42 = true ∧ getBadgeStatus 42 = .NONE := by
  refine ⟨fun node currentSlot => ?_,
    by norm_num [calculateRealMetrics, xriScore], by decide, by decide⟩
  rw [calculateRealMetrics_xri, xriScore_clamp_floor]

/-- Claim C2: for every input, the reliability index is between 0 and 100. -/
theorem claim2_boundedness (node : RawNode) (currentSlot : Int) :
    0 ≤ (calculateRealMetrics node currentSlot).xri ∧
      (calculateRealMetrics node currentSlot).xri ≤ 100 := by
  rw [calculateRealMetrics_xri]
  unfold xriScore
  exact ⟨le_max_left _ _, max_le (by norm_num) (min_le_left _ _)⟩

/-- Claim C3: on `[0,100]` exactly one risk filter accepts each index, and
the badge tiers partition the interval at 90 / 75 / 50. -/
theorem claim3_tier_partition (i : Int) (h0 : 0 ≤ i) (h1 : i ≤ 100) :
    ((riskCritical i = true ∧ riskWarning i = false ∧ riskHealthy i = false) ∨
     (riskCritical i = false ∧ riskWarning i = true ∧ riskHealthy i = false) ∨
     (riskCritical i = false ∧ riskWarning i = false ∧ riskHealthy i = true)) ∧
    (getBadgeStatus i = .GOLD ↔ 90 ≤ i) ∧
    (getBadgeStatus i = .SILVER ↔ 75 ≤ i ∧ i < 90) ∧
    (getBadgeStatus i = .BRONZE ↔ 50 ≤ i ∧ i < 75) ∧
    (getBadgeStatus i = .NONE ↔ i < 50) := by
  unfold riskCritical riskWarning riskHealthy getBadgeStatus
  constructor
  · rcases lt_or_le i 50 with h | h
    · refine Or.inl ⟨?_, ?_, ?_⟩ <;> simp <;> omega
    · rcases lt_or_le i 80 with h2 | h2
      · refine Or.inr (Or.inl ⟨?_, ?_, ?_⟩) <;> simp <;> omega
      · refine Or.inr (Or.inr ⟨?_, ?_, ?_⟩) <;> simp <;> omega
  · refine ⟨?_, ?_, ?_, ?_⟩ <;> split_ifs <;> simp_all <;> omega

/-- Witness for C3 at index 60 (a warning-tier, bronze-badge value). -/
theorem claim3_tier_partition_witness :
    (0 : Int) ≤ 60 ∧ (60 : Int) ≤ 100 ∧
    (((riskCritical 60 = true ∧ riskWarning 60 = false ∧ riskHealthy 60 = false) ∨
      (riskCritical 60 = false ∧ riskWarning 60 = true ∧ riskHealthy 60 = false) ∨
      (riskCritical 60 = false ∧ riskWarning 60 = false ∧ riskHealthy 60 = true)) ∧
     (getBadgeStatus 60 = .GOLD ↔ 90 ≤ (60 : Int)) ∧
     (getBadgeStatus 60 = .SILVER ↔ 75 ≤ (60 : Int) ∧ (60 : Int) < 90) ∧
     (getBadgeStatus 60 = .BRONZE ↔ 50 ≤ (60 : Int) ∧ (60 : Int) < 75) ∧
     (getBadgeStatus 60 = .NONE ↔ (60 : Int) < 50)) :=
  ⟨by decide, by decide, claim3_tier_partition 60 (by decide) (by decide)⟩

/-- Claim C5: two samples that agree on gossip presence and whose computed
skip rate and vote lag are ordered have oppositely ordered reliability
indices (larger penalties never increase the index). -/
theorem claim5_monotonicity (s1 s2 : RawNode) (slot : Int)
    (hg : s1.gossip = s2.gossip)
    (hskip : (calculateRealMetrics s1 slot).skip ≤ (calculateRealMetrics s2 slot).skip)
    (hlag : (calculateRealMetrics s1 slot).lag ≤ (calculateRealMetrics s2 slot).lag) :
    (calculateRealMetrics s2 slot).xri ≤ (calculateRealMetrics s1 slot).xri := by
  rw [calculateRealMetrics_xri s1 slot, calculateRealMetrics_xri s2 slot, hg]
  exact xriScore_antitone s2.gossip hskip hlag

/-- Witness for C5: skip 5 vs 10 and lag 50 vs 100 give XRI 67 vs 35. -/
theorem claim5_monotonicity_witness :
    (⟨true, some ⟨950, 0, 0⟩, some ⟨100, 95⟩⟩ : RawNode).gossip
        = (⟨true, some ⟨900, 0, 0⟩, some ⟨100, 90⟩⟩ : RawNode).gossip ∧
    (calculateRealMetrics ⟨true, some ⟨950, 0, 0⟩, some ⟨100, 95⟩⟩ 1000).skip
        ≤ (calculateRealMetrics ⟨true, some ⟨900, 0, 0⟩, some ⟨100, 90⟩⟩ 1000).skip ∧
    (calculateRealMetrics ⟨true, some ⟨950, 0, 0⟩, some ⟨100, 95⟩⟩ 1000).lag
        ≤ (calculateRealMetrics ⟨true, some ⟨900, 0, 0⟩, some ⟨100, 90⟩⟩ 1000).lag ∧
    (calculateRealMetrics ⟨true, some ⟨900, 0, 0⟩, some ⟨100, 90⟩⟩ 1000).xri
        ≤ (calculateRealMetrics ⟨true, some ⟨950, 0, 0⟩, some ⟨100, 95⟩⟩ 1000).xri :=
  ⟨rfl, by norm_num [calculateRealMetrics], by norm_num [calculateRealMetrics],
   claim5_monotonicity _ _ 1000 rfl (by norm_num [calculateRealMetrics])
     (by norm_num [calculateRealMetrics])⟩

/-- The computed `skip` field, by cases on the production record. -/
theorem calculateRealMetrics_skip (node : RawNode) (slot : Int) :
    (calculateRealMetrics node slot).skip
      = (match node.production with
         | some p => if 0 < p.leaderSlots
             then ((p.leaderSlots : ℚ) - (p.blocksProduced : ℚ)) / (p.leaderSlots : ℚ) * 100
             else 0
         | none => 0) := by
  rcases node with ⟨g, v, p⟩
  cases p <;> rfl

/-- The computed `lag` field, by cases on the vote record. -/
theorem calculateRealMetrics_lag (node : RawNode) (slot : Int) :
    (calculateRealMetrics node slot).lag
      = (match node.vote with
         | some v => if 0 < slot then max 0 (slot - v.lastVote) else 0
         | none => 0) := by
  rcases node with ⟨g, v, p⟩
  cases v <;> rfl

/-- The computed `efficiency` field, by cases on the production record. -/
theorem calculateRealMetrics_efficiency (node : RawNode) (slot : Int) :
    (calculateRealMetrics node slot).efficiency
      = (match node.production with
         | some p => if 0 < p.leaderSlots
             then (p.blocksProduced : ℚ) / (p.leaderSlots : ℚ) * 100
             else if (calculateRealMetrics node slot).lag < 5 then 100 else 50
         | none => if (calculateRealMetrics node slot).lag < 5 then 100 else 50) := by
  rcases node with ⟨g, v, p⟩
  cases p <;> rfl

/-- The computed vote lag is never negative (clamped at 0). -/
theorem lag_nonneg (node : RawNode) (slot : Int) :
    0 ≤ (calculateRealMetrics node slot).lag := by
  rw [calculateRealMetrics_lag]
  rcases node.vote with _ | v
  · exact le_refl 0
  · by_cases h : 0 < slot
    · simp only [if_pos h]
      exact le_max_left 0 _
    · simp only [if_neg h]
      exact le_refl 0

/-- Spec §3 invariant on a sample: if a production record is present, its
`blocksProduced` lies in `[0, leaderSlots]`. -/
def ValidSample (node : RawNode) : Bool :=
  match node.production with
  | some p => decide (0 ≤ p.blocksProduced) && decide (p.blocksProduced ≤ p.leaderSlots)
  | none => true

/-- On a valid sample the computed skip rate is non-negative. -/
theorem skip_nonneg (node : RawNode) (slot : Int) (h : ValidSample node = true) :
    0 ≤ (calculateRealMetrics node slot).skip := by
  rw [calculateRealMetrics_skip]
  rcases hp : node.production with _ | p
  · exact le_refl 0
  · rw [ValidSample, hp] at h
    rw [Bool.and_eq_true, decide_eq_true_eq, decide_eq_true_eq] at h
    by_cases hl : 0 < p.leaderSlots
    · simp only [if_pos hl]
      have h1 : (p.blocksProduced : ℚ) ≤ (p.leaderSlots : ℚ) := by exact_mod_cast h.2
      have h2 : (0 : ℚ) < (p.leaderSlots : ℚ) := by exact_mod_cast hl
      have := div_nonneg (by linarith : (0 : ℚ) ≤ (p.leaderSlots : ℚ) - (p.blocksProduced : ℚ))
        (le_of_lt h2)
      nlinarith
    · simp only [if_neg hl]
      exact le_refl 0

/-- Claim C6: with a valid sample, the gossip-absent XRI is the gossip-present
XRI lowered by 20 and clamped at 0; whenever the gossip-present XRI is at
least 20 the difference is exactly 20. -/
theorem claim6_gossip_penalty (v : Option VoteRecord) (p : Option ProductionRecord)
    (slot : Int) (hval : ValidSample ⟨true, v, p⟩ = true) :
    (calculateRealMetrics ⟨false, v, p⟩ slot).xri
        = max 0 ((calculateRealMetrics ⟨true, v, p⟩ slot).xri - 20) ∧
    (20 ≤ (calculateRealMetrics ⟨true, v, p⟩ slot).xri →
      (calculateRealMetrics ⟨true, v, p⟩ slot).xri
          - (calculateRealMetrics ⟨false, v, p⟩ slot).xri = 20) := by
  have hskip : 0 ≤ (calculateRealMetrics ⟨true, v, p⟩ slot).skip := skip_nonneg _ slot hval
  have hlag : 0 ≤ (calculateRealMetrics ⟨true, v, p⟩ slot).lag := lag_nonneg _ slot
  have e1 : (calculateRealMetrics ⟨true, v, p⟩ slot).xri
      = xriScore (calculateRealMetrics ⟨true, v, p⟩ slot).skip
          (calculateRealMetrics ⟨true, v, p⟩ slot).lag true := rfl
  have e2 : (calculateRealMetrics ⟨false, v, p⟩ slot).xri
      = xriScore (calculateRealMetrics ⟨true, v, p⟩ slot).skip
          (calculateRealMetrics ⟨true, v, p⟩ slot).lag false := rfl
  rw [e1, e2]
  set sk := (calculateRealMetrics ⟨true, v, p⟩ slot).skip with hsk
  set lg := (calculateRealMetrics ⟨true, v, p⟩ slot).lag with hlg
  have hlgq : (0 : ℚ) ≤ (lg : ℚ) := by exact_mod_cast hlag
  have hq : (100 : ℚ) - sk * (3 / 2) - (lg : ℚ) * (1 / 2) ≤ 100 := by nlinarith
  have ha : ⌊(100 : ℚ) - sk * (3 / 2) - (lg : ℚ) * (1 / 2)⌋ ≤ 100 := by
    have := Int.floor_mono hq
    simpa [show ⌊(100 : ℚ)⌋ = 100 from by norm_num] using this
  have hsub : ⌊(100 : ℚ) - sk * (3 / 2) - (lg : ℚ) * (1 / 2) - 20⌋
      = ⌊(100 : ℚ) - sk * (3 / 2) - (lg : ℚ) * (1 / 2)⌋ - 20 := by
    have h20 : ((20 : ℤ) : ℚ) = 20 := by norm_num
    rw [← h20, Int.floor_sub_int]
  unfold xriScore
  simp only [Bool.false_eq_true, if_false, if_true, hsub]
  omega

/-- Witness for C6: skip 10 and lag 100 give XRI 35 with gossip, 15 without. -/
theorem claim6_gossip_penalty_witness :
    ValidSample ⟨true, some ⟨900, 0, 0⟩, some ⟨100, 90⟩⟩ = true ∧
    ((calculateRealMetrics ⟨false, some ⟨900, 0, 0⟩, some ⟨100, 90⟩⟩ 1000).xri
        = max 0 ((calculateRealMetrics ⟨true, some ⟨900, 0, 0⟩, some ⟨100, 90⟩⟩ 1000).xri - 20) ∧
     (20 ≤ (calculateRealMetrics ⟨true, some ⟨900, 0, 0⟩, some ⟨100, 90⟩⟩ 1000).xri →
       (calculateRealMetrics ⟨true, some ⟨900, 0, 0⟩, some ⟨100, 90⟩⟩ 1000).xri
           - (calculateRealMetrics ⟨false, some ⟨900, 0, 0⟩, some ⟨100, 90⟩⟩ 1000).xri = 20)) :=
  ⟨by decide, claim6_gossip_penalty (some ⟨900, 0, 0⟩) (some ⟨100, 90⟩) 1000 (by decide)⟩

/-- Claim C10: with a production record and positive leader slots, efficiency
and skip rate sum to exactly 100. -/
theorem claim10_efficiency_complement (node : RawNode) (slot : Int) (p : ProductionRecord)
    (hp : node.production = some p) (hl : 0 < p.leaderSlots) :
    (calculateRealMetrics node slot).efficiency + (calculateRealMetrics node slot).skip
      = 100 := by
  rw [calculateRealMetrics_skip, calculateRealMetrics_efficiency, hp]
  simp only [if_pos hl]
  have hne : (p.leaderSlots : ℚ) ≠ 0 := by
    have : (0 : ℚ) < (p.leaderSlots : ℚ) := by exact_mod_cast hl
    linarith
  field_simp
  ring

/-- Witness for C10: 95 produced of 100 assigned gives 95 + 5 = 100. -/
theorem claim10_efficiency_complement_witness :
    (⟨true, none, some ⟨100, 95⟩⟩ : RawNode).production = some ⟨100, 95⟩ ∧
    (0 : Int) < (⟨100, 95⟩ : ProductionRecord).leaderSlots ∧
    (calculateRealMetrics ⟨true, none, some ⟨100, 95⟩⟩ 1000).efficiency
        + (calculateRealMetrics ⟨true, none, some ⟨100, 95⟩⟩ 1000).skip = 100 :=
  ⟨rfl, by decide,
   claim10_efficiency_complement ⟨true, none, some ⟨100, 95⟩⟩ 1000 ⟨100, 95⟩ rfl (by decide)⟩

/-- Embeds src/unnamed/part_002 lines 205-208 (`initSystem`): the per-node slot lag. -/
def part2SlotLag (vote : Option VoteRecord) (currentSlotHeight : Int) : Int :=
  match vote with
  | some v => if 0 < currentSlotHeight then max 0 (currentSlotHeight - v.lastVote) else 0
  | none => 0

/-- Embeds src/unnamed/part_002 lines 210-216 (`initSystem`): the skip rate, with the
lag-based estimate `Math.min(100, Math.max(0, slotLag / 50))` taken whenever no
production record with positive leader slots exists but a vote record does. -/
def part2SkipRateVal (vote : Option VoteRecord) (prod : Option ProductionRecord)
    (slotLag : Int) : ℚ :=
  match prod with
  | some p =>
      if 0 < p.leaderSlots then
        ((p.leaderSlots : ℚ) - (p.blocksProduced : ℚ)) / (p.leaderSlots : ℚ) * 100
      else
        match vote with
        | some _ => min 100 (max 0 ((slotLag : ℚ) / 50))
        | none => 0
  | none =>
      match vote with
      | some _ => min 100 (max 0 ((slotLag : ℚ) / 50))
      | none => 0

/-- Counterexample to C7: in part_002's engine a voting node with no
production record and slot lag 100 gets skip rate 2, not 0 — a lag-based
estimate. -/
theorem claim7_counterexample :
    part2SkipRateVal (some ⟨900, 0, 0⟩) none (part2SlotLag (some ⟨900, 0, 0⟩) 1000) = 2 ∧
    (2 : ℚ) ≠ 0 := by
  constructor
  · norm_num [part2SkipRateVal, part2SlotLag, min_def, max_def]
  · norm_num

/-- Amended C7: part_001's engine reports the production formula when leader
slots are positive and 0 otherwise, while part_002's engine falls back to the
clamped lag estimate `slotLag / 50` when a vote record is present, reporting
0 only when neither record exists. -/
theorem claim7_amended (node : RawNode) (slot : Int) :
    (∀ p, node.production = some p → 0 < p.leaderSlots →
        (calculateRealMetrics node slot).skip
          = ((p.leaderSlots : ℚ) - (p.blocksProduced : ℚ)) / (p.leaderSlots : ℚ) * 100) ∧
    ((node.production = none ∨ ∃ p, node.production = some p ∧ p.leaderSlots ≤ 0) →
        (calculateRealMetrics node slot).skip = 0) ∧
    (node.production = none → ∀ v, node.vote = some v →
        part2SkipRateVal node.vote node.production (part2SlotLag node.vote slot)
          = min 100 (max 0 ((part2SlotLag node.vote slot : ℚ) / 50))) ∧
    (node.production = none → node.vote = none →
        part2SkipRateVal node.vote node.production (part2SlotLag node.vote slot) = 0) := by
  refine ⟨fun p hp hl => ?_, fun h => ?_, fun hp v hv => ?_, fun hp hv => ?_⟩
  · rw [calculateRealMetrics_skip, hp]
    simp only [if_pos hl]
  · rw [calculateRealMetrics_skip]
    rcases h with h | ⟨p, hp, hl⟩
    · rw [h]
    · rw [hp]
      simp only [if_neg (not_lt.mpr hl)]
  · rw [hp, hv]
    rfl
  · rw [hp, hv]
    rfl

/-- Witness for C7's amended statement, at a voting node with no production
record: part_001 reports 0, part_002 reports the clamped lag estimate. -/
theorem claim7_amended_witness :
    (calculateRealMetrics ⟨true, some ⟨900, 0, 0⟩, none⟩ 1000).skip = 0 ∧
    part2SkipRateVal (some ⟨900, 0, 0⟩) none (part2SlotLag (some ⟨900, 0, 0⟩) 1000)
      = min 100 (max 0 ((part2SlotLag (some ⟨900, 0, 0⟩) 1000 : ℚ) / 50)) :=
  ⟨(claim7_amended ⟨true, some ⟨900, 0, 0⟩, none⟩ 1000).2.1 (Or.inl rfl),
   (claim7_amended ⟨true, some ⟨900, 0, 0⟩, none⟩ 1000).2.2.1 rfl ⟨900, 0, 0⟩ rfl⟩

/-- Counterexample to C8: a production record with more blocks produced than
leader slots drives the reported skip rate to -50, which is negative — the
engine does not clamp it to the valid range. -/
theorem claim8_counterexample :
    (calculateRealMetrics ⟨true, none, some ⟨100, 150⟩⟩ 0).skip = -50 ∧
    ¬ 0 ≤ (calculateRealMetrics ⟨true, none, some ⟨100, 150⟩⟩ 0).skip := by
  constructor <;> norm_num [calculateRealMetrics]

/-- Amended C8: a negative computed lag is clamped to 0 and the engine is
total, but a production record with `blocksProduced > leaderSlots > 0` makes
the reported skip rate negative (it is propagated unclamped; only the final
reliability index is clamped). -/
theorem claim8_amended (node : RawNode) (slot : Int) :
    0 ≤ (calculateRealMetrics node slot).lag ∧
    (∀ p, node.production = some p → 0 < p.leaderSlots →
        p.leaderSlots < p.blocksProduced →
        (calculateRealMetrics node slot).skip < 0) := by
  refine ⟨lag_nonneg node slot, fun p hp hl hb => ?_⟩
  rw [calculateRealMetrics_skip, hp]
  simp only [if_pos hl]
  have h1 : (p.leaderSlots : ℚ) < (p.blocksProduced : ℚ) := by exact_mod_cast hb
  have h2 : (0 : ℚ) < (p.leaderSlots : ℚ) := by exact_mod_cast hl
  have := div_neg_of_neg_of_pos
    (by linarith : (p.leaderSlots : ℚ) - (p.blocksProduced : ℚ) < 0) h2
  nlinarith

/-- Witness for C8's amended statement: last vote ahead of the current slot
is clamped to lag 0, and 150 blocks on 100 slots yields a negative skip. -/
theorem claim8_amended_witness :
    0 ≤ (calculateRealMetrics ⟨true, some ⟨2000, 0, 0⟩, some ⟨100, 150⟩⟩ 1000).lag ∧
    (calculateRealMetrics ⟨true, some ⟨2000, 0, 0⟩, some ⟨100, 150⟩⟩ 1000).skip < 0 :=
  ⟨(claim8_amended ⟨true, some ⟨2000, 0, 0⟩, some ⟨100, 150⟩⟩ 1000).1,
   (claim8_amended ⟨true, some ⟨2000, 0, 0⟩, some ⟨100, 150⟩⟩ 1000).2 ⟨100, 150⟩ rfl
     (by decide) (by decide)⟩

/-- Embeds src/unnamed/part_002 lines 192-197 (`initSystem`): the Nakamoto
accumulation loop — add the next stake, bump the counter, stop as soon as
the accumulated stake reaches the threshold. -/
def nakamotoGo (threshold : ℚ) : List Int → ℚ → Nat → Nat
  | [], _, nk => nk
  | s :: rest, acc, nk =>
      if threshold ≤ acc + (s : ℚ) then nk + 1
      else nakamotoGo threshold rest (acc + (s : ℚ)) (nk + 1)

/-- Embeds src/unnamed/part_002 lines 188-198 (`initSystem`): sort stakes
descending, run the loop against `calcStake * 0.3333`, and coerce a zero
count to 1 (`nkIndex || 1`). -/
def nakamotoIndex (stakes : List Int) : Nat :=
  let sorted := List.insertionSort (fun a b => b ≤ a) stakes
  let threshold : ℚ := (stakes.sum : ℚ) * (3333 / 10000)
  let nk := nakamotoGo threshold sorted 0 0
  if nk = 0 then 1 else nk

/-- Modelled from the claim's words for comparison: identical to
`nakamotoIndex` except that the threshold is exactly one-third of total
stake, as the claim asserts. -/
def nakamotoIndexOneThird (stakes : List Int) : Nat :=
  let sorted := List.insertionSort (fun a b => b ≤ a) stakes
  let threshold : ℚ := (stakes.sum : ℚ) / 3
  let nk := nakamotoGo threshold sorted 0 0
  if nk = 0 then 1 else nk

/-- Counterexample to C4: on stakes `[3333, 3333, 3333, 1]` (total 10000) the
code's `0.3333 * total` threshold is met by the first validator alone, while
the claim's "one-third of total stake" rule needs two — the two procedures
disagree, so the claim's description of the threshold does not match the
code. -/
theorem claim4_counterexample :
    nakamotoIndex [3333, 3333, 3333, 1] = 1 ∧
    nakamotoIndexOneThird [3333, 3333, 3333, 1] = 2 := by
  have hsort : List.insertionSort (fun a b : Int => b ≤ a) [3333, 3333, 3333, 1]
      = [3333, 3333, 3333, 1] := by decide
  constructor
  · simp only [nakamotoIndex, hsort, List.sum_cons, List.sum_nil]
    norm_num [nakamotoGo]
  · simp only [nakamotoIndexOneThird, hsort, List.sum_cons, List.sum_nil]
    norm_num [nakamotoGo]

/-- Every element of a list of non-negative integers summing to zero is
zero. -/
theorem sum_zero_of_nonneg {l : List Int} (h : ∀ s ∈ l, 0 ≤ s) (hs : l.sum = 0) :
    ∀ s ∈ l, s = 0 := by
  induction l with
  | nil =>
    intro s hmem
    simp at hmem
  | cons a t ih =>
    have ha : 0 ≤ a := h a (List.mem_cons_self a t)
    have ht : ∀ s ∈ t, 0 ≤ s := fun s hmem => h s (List.mem_cons_of_mem a hmem)
    have htsum : 0 ≤ t.sum := List.sum_nonneg ht
    rw [List.sum_cons] at hs
    intro s hmem
    rcases List.mem_cons.mp hmem with rfl | hmem2
    · omega
    · exact ih ht (by omega) s hmem2

/-- Amended C4: with the code's threshold of `0.3333 * total stake`, the
measure is 1 on an empty validator set, 1 on any zero-total-stake set with
non-negative stakes (no division occurs anywhere), and 1 on stakes
`[50, 30, 20]`. -/
theorem claim4_amended :
    (∀ stakes : List Int, (∀ s ∈ stakes, 0 ≤ s) → stakes.sum = 0 →
        nakamotoIndex stakes = 1) ∧
    nakamotoIndex [] = 1 ∧
    nakamotoIndex [50, 30, 20] = 1 := by
  refine ⟨fun stakes hpos hsum => ?_, rfl, ?_⟩
  · have hzero : ∀ s ∈ stakes, s = 0 := sum_zero_of_nonneg hpos hsum
    simp only [nakamotoIndex, hsum]
    cases hcase : List.insertionSort (fun a b : Int => b ≤ a) stakes with
    | nil => norm_num [nakamotoGo]
    | cons a t =>
      have hmem : a ∈ stakes := by
        have : a ∈ List.insertionSort (fun a b : Int => b ≤ a) stakes := by
          rw [hcase]
          exact List.mem_cons_self a t
        exact (List.perm_insertionSort _ stakes).mem_iff.mp this
      have ha : a = 0 := hzero a hmem
      rw [ha]
      norm_num [nakamotoGo]
  · have hsort : List.insertionSort (fun a b : Int => b ≤ a) [50, 30, 20]
        = [50, 30, 20] := by decide
    simp only [nakamotoIndex, hsort, List.sum_cons, List.sum_nil]
    norm_num [nakamotoGo]

/-- Witness for C4's amended statement on the zero-stake set `[0, 0]`. -/
theorem claim4_amended_witness :
    (∀ s ∈ ([0, 0] : List Int), 0 ≤ s) ∧ ([0, 0] : List Int).sum = 0 ∧
    nakamotoIndex [0, 0] = 1 :=
  ⟨by decide, by decide, claim4_amended.1 [0, 0] (by decide) (by decide)⟩

/-- A persisted `node_snapshots` row as selected by the get-history route
(columns `created_at`, `stake`, `health_score`). -/
structure SnapshotRow where
  created_at : Int
  stake : Int
  health_score : Int
  deriving DecidableEq

/-- A chart entry produced by the route (`time`, `stake`, `health`).  The
`toLocaleTimeString` rendering of `time` is locale-dependent presentation and
is modelled as carrying the raw timestamp through. -/
structure ChartPoint where
  time : Int
  stake : ℚ
  health : Int
  deriving DecidableEq

instance : IsTotal SnapshotRow (fun a b => a.created_at ≤ b.created_at) :=
  ⟨fun a b => Int.le_total a.created_at b.created_at⟩

instance : IsTrans SnapshotRow (fun a b => a.created_at ≤ b.created_at) :=
  ⟨fun _ _ _ h1 h2 => le_trans h1 h2⟩

/-- Embeds src/app/api/get-history/route.ts lines 10-26: query the stored rows
ordered by `created_at` ascending with limit 200, then map each row to a
chart entry with `stake` divided by the fixed divisor 10^9. -/
def getHistory (store : List SnapshotRow) : List ChartPoint :=
  ((List.insertionSort (fun a b => a.created_at ≤ b.created_at) store).take 200).map
    (fun item => ⟨item.created_at, (item.stake : ℚ) / 1000000000, item.health_score⟩)

/-- Embeds src/unnamed/part_001 lines 219-231 (`fetchHistory`): spread each entry,
re-render its time field (presentation, modelled as the identity on the
timestamp), then reverse the array. -/
def fetchHistoryFormat (data : List ChartPoint) : List ChartPoint :=
  (data.map (fun d => ⟨d.time, d.stake, d.health⟩)).reverse

/-- Re-rendering the time field is the identity, so the formatter is exactly
list reversal. -/
theorem fetchHistoryFormat_eq_reverse (data : List ChartPoint) :
    fetchHistoryFormat data = data.reverse := by
  unfold fetchHistoryFormat
  congr 1
  exact List.map_id' data

/-- Counterexample to C9: on a store holding timestamps 1 then 2 (oldest
first, as the ascending query returns them), the displayed series has times
`[2, 1]` — most-recent-first — not the oldest-first `[1, 2]` the claim
asserts. -/
theorem claim9_counterexample :
    (fetchHistoryFormat (getHistory [⟨1, 2000000000, 90⟩, ⟨2, 4000000000, 80⟩])).map
        ChartPoint.time = [2, 1] ∧
    ([2, 1] : List Int) ≠ [1, 2] := by
  have hsort : List.insertionSort
        (fun a b : SnapshotRow => a.created_at ≤ b.created_at)
        [⟨1, 2000000000, 90⟩, ⟨2, 4000000000, 80⟩]
      = [⟨1, 2000000000, 90⟩, ⟨2, 4000000000, 80⟩] := by decide
  constructor
  · rw [fetchHistoryFormat_eq_reverse]
    simp only [getHistory, hsort]
    rw [List.take_of_length_le (by norm_num)]
    simp
  · decide

/-- Amended C9: the route hands the client the stored rows ordered ascending
by `created_at` (oldest first, up to 200 rows) with stake divided by 10^9;
the client-side formatter is exactly the reversal of the sequence it
receives, with no re-sorting, so the displayed series is most-recent-first
rather than oldest-first. -/
theorem claim9_amended (store : List SnapshotRow) :
    fetchHistoryFormat (getHistory store) = (getHistory store).reverse ∧
    ((getHistory store).map ChartPoint.time).Pairwise (· ≤ ·) ∧
    ((fetchHistoryFormat (getHistory store)).map ChartPoint.time).Pairwise (· ≥ ·) ∧
    (∀ c ∈ getHistory store, ∃ r, r ∈ store ∧ c.time = r.created_at ∧
        c.stake = (r.stake : ℚ) / 1000000000 ∧ c.health = r.health_score) := by
  have hsorted : List.Sorted (fun a b : SnapshotRow => a.created_at ≤ b.created_at)
      (List.insertionSort (fun a b => a.created_at ≤ b.created_at) store) :=
    List.sorted_insertionSort _ store
  have htake : ((List.insertionSort
        (fun a b : SnapshotRow => a.created_at ≤ b.created_at) store).take 200).Pairwise
      (fun a b => a.created_at ≤ b.created_at) :=
    hsorted.sublist (List.take_sublist _ _)
  have hmap : (getHistory store).map ChartPoint.time
      = ((List.insertionSort (fun a b => a.created_at ≤ b.created_at) store).take 200).map
          (fun item => item.created_at) := by
    unfold getHistory
    rw [List.map_map]
    rfl
  have hasc : ((getHistory store).map ChartPoint.time).Pairwise (· ≤ ·) := by
    rw [hmap, List.pairwise_map]
    exact htake
  refine ⟨fetchHistoryFormat_eq_reverse _, hasc, ?_, ?_⟩
  · rw [fetchHistoryFormat_eq_reverse, List.map_reverse, List.pairwise_reverse]
    exact hasc.imp fun h => h
  · intro c hc
    unfold getHistory at hc
    rcases List.mem_map.mp hc with ⟨item, hitem, rfl⟩
    have h1 : item ∈ List.insertionSort
        (fun a b : SnapshotRow => a.created_at ≤ b.created_at) store :=
      List.mem_of_mem_take hitem
    have h2 : item ∈ store := (List.perm_insertionSort _ store).mem_iff.mp h1
    exact ⟨item, h2, rfl, rfl, rfl⟩

/-- Witness for C9's amended statement on a one-row store. -/
theorem claim9_amended_witness :
    (⟨1, (2 : ℚ), 90⟩ : ChartPoint) ∈ getHistory [⟨1, 2000000000, 90⟩] ∧
    (∃ r, r ∈ ([⟨1, 2000000000, 90⟩] : List SnapshotRow) ∧
      (⟨1, (2 : ℚ), 90⟩ : ChartPoint).time = r.created_at ∧
      (⟨1, (2 : ℚ), 90⟩ : ChartPoint).stake = (r.stake : ℚ) / 1000000000 ∧
      (⟨1, (2 : ℚ), 90⟩ : ChartPoint).health = r.health_score) :=
  have hmem : (⟨1, (2 : ℚ), 90⟩ : ChartPoint) ∈ getHistory [⟨1, 2000000000, 90⟩] := by
    simp only [getHistory]
    rw [show List.insertionSort
          (fun a b : SnapshotRow => a.created_at ≤ b.created_at)
          [⟨1, 2000000000, 90⟩] = [⟨1, 2000000000, 90⟩] from by decide,
        List.take_of_length_le (by norm_num)]
    norm_num
  ⟨hmem, (claim9_amended [⟨1, 2000000000, 90⟩]).2.2.2 ⟨1, (2 : ℚ), 90⟩ hmem⟩

end Xandeum
